import Mathlib

/-!
# Allwinner H616 pin population and Orange Pi header registration

A shallow embedding of `allwinner/h616.go` and `orangepi/orangepi.go`.

* Go strings are Lean strings; `strings.Contains` and `strings.HasPrefix` are
  the sublist and initial-segment relations on their characters (for the
  ASCII constants used here this coincides with the byte-wise relation).
* A Go `error` is an `Option String`, `none` being `nil`.
* The package-level map `cpupins` (name to pin pointer) is a function from
  names to optional pin records; dereferencing a missing pin is the result
  `none` of the operation (a nil pointer panic).
* A Go map that is ranged over is a list of key/value pairs in the order the
  iteration visits them.
* Calls into `pinreg.Register` are threaded through an explicit registry
  state of arbitrary type.
-/

namespace strings

/-- Go `strings.Contains(s, substr)`: `substr` occurs inside `s`. -/
def Contains (s substr : String) : Bool :=
  decide (substr.data <:+: s.data)

/-- Go `strings.HasPrefix(s, p)`: `s` begins with `p`. -/
def HasPrefix (s p : String) : Bool :=
  decide (p.data <+: s.data)

end strings

namespace pin

/-- A value of the Go interface `pin.Pin` as a header row holds it: a fixed
signal (power rail or ground), the marker `gpio.INVALID`, an analog pin of
the chip, or one of the chip's GPIO pins, given by its name. -/
inductive Pin where
  | fixed (name : String)
  | invalid
  | analog (name : String)
  | gpio (name : String)
deriving DecidableEq, Repr

/-- The name of the chip GPIO pin a header element refers to, if it is one. -/
def Pin.gpioName : Pin → Option String
  | Pin.gpio name => some name
  | _ => none

def DC_IN : Pin := Pin.fixed "DC_IN"
def V5 : Pin := Pin.fixed "V5"
def V3_3 : Pin := Pin.fixed "V3_3"
def GROUND : Pin := Pin.fixed "GROUND"

end pin

namespace gpio

def INVALID : pin.Pin := pin.Pin.invalid

end gpio


namespace allwinner

/-- The Go type `[5]pin.Func`: five alternate-function labels, index 0 to 4. -/
structure AltFuncs where
  f0 : String
  f1 : String
  f2 : String
  f3 : String
  f4 : String
deriving DecidableEq, Repr

/-- The zero value of `[5]pin.Func`. -/
def AltFuncs.zero : AltFuncs := AltFuncs.mk "" "" "" "" ""

/-- Modelled from the spec: the lower-level OS pin object (`sysfs.Pin`), which
is declared in the package `sysfs`; it is identified by its number. -/
structure SysfsPin where
  number : Int
deriving DecidableEq, Repr

/-- Modelled from the spec: the `Pin` record of the package, declared in
another file of the package. It carries the immutable identity (`name`, and
`number`, the value `Number()` returns) and the four fields `mapH616Pins`
assigns. -/
structure Pin where
  name : String
  number : Int
  altFunc : AltFuncs
  available : Bool
  supportEdge : Bool
  sysfsPin : Option SysfsPin
deriving DecidableEq, Repr

/-- The map `cpupins` (declared in another file of the package), from pin
name to pin pointer. The pins are separate records, one per name, so the pool is a
function from names to pin states and an assignment through the pointer
updates the pool at that name. -/
abbrev Pool := String → Option Pin

/-- A function table `map[string][5]pin.Func` in iteration order. -/
abbrev FuncTable := List (String × AltFuncs)

/-- The keys of a function table. -/
def FuncTable.keys (t : FuncTable) : List String := t.map Prod.fst

/-- The table `mappingH616` of `h616.go`. -/
def mappingH616 : FuncTable := [
  ("PC0", AltFuncs.mk "NAND_WE" "SDC2_DS" "SPI0_CLK" "" "PC_EINT0"),
  ("PC1", AltFuncs.mk "NAND_ALE" "SDC2_RST" "" "" "PC_EINT1"),
  ("PC2", AltFuncs.mk "NAND_CLE" "" "SPI0_MOSI" "" "PC_EINT2"),
  ("PC3", AltFuncs.mk "NAND_CE1" "" "SPI0_CS0" "BOOT_SEL1" "PC_EINT3"),
  ("PC4", AltFuncs.mk "NAND_CE0" "" "SPI0_MISO" "BOOT_SEL2" "PC_EINT4"),
  ("PC5", AltFuncs.mk "NAND_RE" "SDC2_CLK" "" "BOOT_SEL3" "PC_EINT5"),
  ("PC6", AltFuncs.mk "NAND_RB0" "SDC2_CMD" "" "BOOT_SEL4" "PC_EINT6"),
  ("PC7", AltFuncs.mk "NAND_RB1" "" "SPI0_CS1" "" "PC_EINT7"),
  ("PC8", AltFuncs.mk "NAND_DQ7" "SDC2_D3" "" "" "PC_EINT8"),
  ("PC9", AltFuncs.mk "NAND_DQ6" "SDC2_D4" "" "" "PC_EINT9"),
  ("PC10", AltFuncs.mk "NAND_DQ5" "SDC2_D0" "" "" "PC_EINT10"),
  ("PC11", AltFuncs.mk "NAND_DQ4" "SDC2_D5" "" "" "PC_EINT11"),
  ("PC12", AltFuncs.mk "NAND_DQS" "" "" "" "PC_EINT12"),
  ("PC13", AltFuncs.mk "NAND_DQ3" "SDC2_D1" "" "" "PC_EINT13"),
  ("PC14", AltFuncs.mk "NAND_DQ2" "SDC2_D6" "" "" "PC_EINT14"),
  ("PC15", AltFuncs.mk "NAND_DQ1" "SDC2_D2" "SPI0_WP" "" "PC_EINT15"),
  ("PC16", AltFuncs.mk "NAND_DQ0" "SDC2_D7" "SPI0_HOLD" "" "PC_EINT16"),

  ("PF0", AltFuncs.mk "SDC0_D1" "JTAG_MS" "" "" "PF_EINT0"),
  ("PF1", AltFuncs.mk "SDC0_D0" "JTAG_DI" "" "" "PF_EINT1"),
  ("PF2", AltFuncs.mk "SDC0_CLK" "UART0_TX" "" "" "PF_EINT2"),
  ("PF3", AltFuncs.mk "SDC0_CMD" "JTAG_DO" "" "" "PF_EINT3"),
  ("PF4", AltFuncs.mk "SDC0_D3" "UART0_RX" "" "" "PF_EINT4"),
  ("PF5", AltFuncs.mk "SDC0_D2" "JTAG_CK" "" "" "PF_EINT5"),
  ("PF6", AltFuncs.mk "" "" "" "" "PF_EINT6"),

  ("PG0", AltFuncs.mk "SDC1_CLK" "" "" "" "PG_EINT0"),
  ("PG1", AltFuncs.mk "SDC1_CMD" "" "" "" "PG_EINT1"),
  ("PG2", AltFuncs.mk "SDC1_D0" "" "" "" "PG_EINT2"),
  ("PG3", AltFuncs.mk "SDC1_D1" "" "" "" "PG_EINT3"),
  ("PG4", AltFuncs.mk "SDC1_D2" "" "" "" "PG_EINT4"),
  ("PG5", AltFuncs.mk "SDC1_D3" "" "" "" "PG_EINT5"),
  ("PG6", AltFuncs.mk "UART1_TX" "" "JTAG_MS" "" "PG_EINT6"),
  ("PG7", AltFuncs.mk "UART1_RX" "" "JTAG_CK" "" "PG_EINT7"),
  ("PG8", AltFuncs.mk "UART1_RTS" "" "JTAG_DO" "" "PG_EINT8"),
  ("PG9", AltFuncs.mk "UART1_CTS" "" "JTAG_DI" "" "PG_EINT9"),
  ("PG10", AltFuncs.mk "H_I2S2_MCLK" "X32KFOUT" "" "" "PG_EINT10"),
  ("PG11", AltFuncs.mk "H_I2S2_BCLK" "" "BIST_RESULT0" "" "PG_EINT11"),
  ("PG12", AltFuncs.mk "H_I2S2_LRCK" "" "BIST_RESULT1" "" "PG_EINT12"),
  ("PG13", AltFuncs.mk "H_I2S2_DOUT0" "H_I2S2_DIN1" "BIST_RESULT2" "" "PG_EINT13"),
  ("PG14", AltFuncs.mk "H_I2S2_DIN0" "H_I2S2_DOUT1" "BIST_RESULT3" "" "PG_EINT14"),
  ("PG15", AltFuncs.mk "UART2_TX" "" "" "TWI4_SCK" "PG_EINT15"),
  ("PG16", AltFuncs.mk "UART2_RX" "" "" "TWI4_SDA" "PG_EINT16"),
  ("PG17", AltFuncs.mk "UART2_RTS" "" "" "TWI3_SCK" "PG_EINT17"),
  ("PG18", AltFuncs.mk "UART2_CTS" "" "" "TWI3_SDA" "PG_EINT18"),
  ("PG19", AltFuncs.mk "" "" "PWM1" "" "PG_EINT19"),

  ("PH0", AltFuncs.mk "UART0_TX" "" "PWM3" "TWI1_SCK" "PH_EINT0"),
  ("PH1", AltFuncs.mk "UART0_RX" "" "PWM3" "TWI1_SDA" "PH_EINT1"),
  ("PH2", AltFuncs.mk "UART5_TX" "OWA_MCLK" "PWM2" "TWI2_SCK" "PH_EINT2"),
  ("PH3", AltFuncs.mk "UART5_RX" "" "PWM1" "TWI2_SDA" "PH_EINT3"),
  ("PH4", AltFuncs.mk "" "OWA_OUT" "" "TWI3_SCK" "PH_EINT4"),
  ("PH5", AltFuncs.mk "UART2_TX" "H_I2S3_MCLK" "SPI1_CS0" "TWI3_SDA" "PH_EINT5"),
  ("PH6", AltFuncs.mk "UART2_RX" "H_I2S3_BCLK" "SPI1_CLK" "TWI4_SCK" "PH_EINT6"),
  ("PH7", AltFuncs.mk "UART2_RTS" "H_I2S3_LRCK" "SPI1_MOSI" "TWI4_SDA" "PH_EINT7"),
  ("PH8", AltFuncs.mk "UART2_CTS" "H_I2S3_DOUT0" "SPI1_MISO" "H_I2S3_DIN1" "PH_EINT8"),
  ("PH9", AltFuncs.mk "" "H_I2S3_DIN0" "SPI1_CS1" "H_I2S3_DOUT1" "PH_EINT9"),
  ("PH10", AltFuncs.mk "" "IR_RX" "TCON_TRIG1" "" "PH_EINT10"),

  ("PI0", AltFuncs.mk "RGMII_RXD3/RMII_NULL" "DMIC_CLK" "H_I2S0_MCLK" "HDMI_SCL" "PI_EINT0"),
  ("PI1", AltFuncs.mk "RGMII_RXD2/RMII_NULL" "DMIC_DATA0" "H_I2S0_BCLK" "HDMI_SDA" "PI_EINT1"),
  ("PI2", AltFuncs.mk "RGMII_RXD1/RMII_RXD1" "DMIC_DATA1" "H_I2S0_LRCK" "HDMI_CEC" "PI_EINT2"),
  ("PI3", AltFuncs.mk "RGMII_RXD0/RMII_RXD0" "DMIC_DATA2" "H_I2S0_DOUT0" "H_I2S0_DIN1" "PI_EINT3"),
  ("PI4", AltFuncs.mk "RGMII_RXCK/RMII_NULL" "DMIC_DATA3" "H_I2S0_DIN0" "H_I2S0_DOUT1" "PI_EINT4"),
  ("PI5", AltFuncs.mk "RGMII_RXCTL/RMII_CRS_DV" "UART2_TX" "TS0_CLK" "TWI0_SCK" "PI_EINT5"),
  ("PI6", AltFuncs.mk "RGMII_NULL/RMII_RXER" "UART2_RX" "TS0_ERR" "TWI0_SDA" "PI_EINT6"),
  ("PI7", AltFuncs.mk "RGMII_TXD3/RMII_NULL" "UART2_RTS" "TS0_SYNC" "TWI1_SCK" "PI_EINT7"),
  ("PI8", AltFuncs.mk "RGMII_TXD2/RMII_NULL" "UART2_CTS" "TS0_DVLD" "TWI1_SDA" "PI_EINT8"),
  ("PI9", AltFuncs.mk "RGMII_TXD1/RMII_TXD1" "UART3_TX" "TS0_D0" "TWI2_SCK" "PI_EINT9"),
  ("PI10", AltFuncs.mk "RGMII_TXD0/RMII_TXD0" "UART3_RX" "TS0_D1" "TWI2_SDA" "PI_EINT10"),
  ("PI11", AltFuncs.mk "RGMII_TXCK/RMII_TXCK" "UART3_RTS" "TS0_D2" "PWM1" "PI_EINT11"),
  ("PI12", AltFuncs.mk "RGMII_TXCTL/RMII_TXEN" "UART3_CTS" "TS0_D3" "PWM2" "PI_EINT12"),
  ("PI13", AltFuncs.mk "RGMII_CLKIN/RMII_NULL" "UART4_TX" "TS0_D4" "PWM3" "PI_EINT13"),
  ("PI14", AltFuncs.mk "MDC" "UART4_RX" "TS0_D5" "PWM4" "PI_EINT14"),
  ("PI15", AltFuncs.mk "MDIO" "UART4_RTS" "TS0_D6" "CLK_FANOUT0" "PI_EINT15"),
  ("PI16", AltFuncs.mk "EPHY_25M" "UART4_CTS" "TS0_D7" "CLK_FANOUT1" "PI_EINT16"),

  ("PL0", AltFuncs.mk "" "S_TWI0_SCK" "" "" ""),
  ("PL1", AltFuncs.mk "" "S_TWI0_SDA" "" "" "")
]

/-- The assignments of the loop body of `mapH616Pins` to one pin:
`altFunc`, `available`, `supportEdge` (only ever raised) and `sysfsPin`. -/
def populatePin (sysfsPins : Int → Option SysfsPin) (altFuncs : AltFuncs) (pin : Pin) : Pin :=
  let pin := { pin with altFunc := altFuncs }
  let pin := { pin with available := true }
  let pin := if strings.Contains altFuncs.f4 "_EINT" then { pin with supportEdge := true } else pin
  { pin with sysfsPin := sysfsPins pin.number }

/-- One iteration of the loop of `mapH616Pins`: `pin := cpupins[name]`
followed by the assignments; `none` when `cpupins` has no such pin. -/
def mapH616PinsStep (sysfsPins : Int → Option SysfsPin) (cpupins : Pool)
    (entry : String × AltFuncs) : Option Pool :=
  match cpupins entry.1 with
  | none => none
  | some pin => some (Function.update cpupins entry.1 (some (populatePin sysfsPins entry.2 pin)))

/-- The function `mapH616Pins` of `h616.go`. Its loop ranges over the table
`mappingH5`, which is declared in another file of the package and is
therefore a parameter, as are the map `sysfs.Pins` and the pool `cpupins`. The returned
error is always `nil`; the result is the pool after the loop, or `none` when
the loop dereferences a missing pin. -/
def mapH616Pins (sysfsPins : Int → Option SysfsPin) : FuncTable → Pool → Option Pool
  | [], cpupins => some cpupins
  | entry :: mappingH5, cpupins =>
    match mapH616PinsStep sysfsPins cpupins entry with
    | none => none
    | some cpupins1 => mapH616Pins sysfsPins mappingH5 cpupins1

/-- The labels a table holds for the pin `n`, in iteration order. -/
def FuncTable.entriesFor (n : String) (t : FuncTable) : List AltFuncs :=
  (t.filter (fun e => decide (e.1 = n))).map Prod.snd

/-- The pin assignments of several entries applied in turn. -/
def populateAll (sysfsPins : Int → Option SysfsPin) (l : List AltFuncs) (pin : Pin) : Pin :=
  l.foldl (fun p af => populatePin sysfsPins af p) pin

/-! The exported pin variables of the package that the Orange Pi headers use.
They are declared in other files of the package; each GPIO variable stands
for the pool entry of the same name. -/

def HP_LEFT : pin.Pin := pin.Pin.analog "HP_LEFT"
def HP_RIGHT : pin.Pin := pin.Pin.analog "HP_RIGHT"
def MIC_GND : pin.Pin := pin.Pin.analog "MIC_GND"
def MIC_IN : pin.Pin := pin.Pin.analog "MIC_IN"
def PA0 : pin.Pin := pin.Pin.gpio "PA0"
def PA1 : pin.Pin := pin.Pin.gpio "PA1"
def PA2 : pin.Pin := pin.Pin.gpio "PA2"
def PA3 : pin.Pin := pin.Pin.gpio "PA3"
def PA6 : pin.Pin := pin.Pin.gpio "PA6"
def PA7 : pin.Pin := pin.Pin.gpio "PA7"
def PA10 : pin.Pin := pin.Pin.gpio "PA10"
def PA11 : pin.Pin := pin.Pin.gpio "PA11"
def PA12 : pin.Pin := pin.Pin.gpio "PA12"
def PA13 : pin.Pin := pin.Pin.gpio "PA13"
def PA14 : pin.Pin := pin.Pin.gpio "PA14"
def PA15 : pin.Pin := pin.Pin.gpio "PA15"
def PA16 : pin.Pin := pin.Pin.gpio "PA16"
def PA18 : pin.Pin := pin.Pin.gpio "PA18"
def PA19 : pin.Pin := pin.Pin.gpio "PA19"
def PC12 : pin.Pin := pin.Pin.gpio "PC12"
def PG6 : pin.Pin := pin.Pin.gpio "PG6"
def PG7 : pin.Pin := pin.Pin.gpio "PG7"
def PH0 : pin.Pin := pin.Pin.gpio "PH0"
def PH1 : pin.Pin := pin.Pin.gpio "PH1"
def PH2 : pin.Pin := pin.Pin.gpio "PH2"
def PH3 : pin.Pin := pin.Pin.gpio "PH3"
def PH4 : pin.Pin := pin.Pin.gpio "PH4"
def PH5 : pin.Pin := pin.Pin.gpio "PH5"
def PH6 : pin.Pin := pin.Pin.gpio "PH6"
def PH7 : pin.Pin := pin.Pin.gpio "PH7"
def PH8 : pin.Pin := pin.Pin.gpio "PH8"
def PH9 : pin.Pin := pin.Pin.gpio "PH9"
def PI0 : pin.Pin := pin.Pin.gpio "PI0"
def PI1 : pin.Pin := pin.Pin.gpio "PI1"
def PI2 : pin.Pin := pin.Pin.gpio "PI2"
def PI3 : pin.Pin := pin.Pin.gpio "PI3"
def PI4 : pin.Pin := pin.Pin.gpio "PI4"
def PI5 : pin.Pin := pin.Pin.gpio "PI5"
def PI6 : pin.Pin := pin.Pin.gpio "PI6"
def PI7 : pin.Pin := pin.Pin.gpio "PI7"
def PI8 : pin.Pin := pin.Pin.gpio "PI8"
def PI9 : pin.Pin := pin.Pin.gpio "PI9"
def PI10 : pin.Pin := pin.Pin.gpio "PI10"
def PI11 : pin.Pin := pin.Pin.gpio "PI11"
def PI12 : pin.Pin := pin.Pin.gpio "PI12"
def PI13 : pin.Pin := pin.Pin.gpio "PI13"
def PI15 : pin.Pin := pin.Pin.gpio "PI15"
def PI16 : pin.Pin := pin.Pin.gpio "PI16"
def PL11 : pin.Pin := pin.Pin.gpio "PL11"

/-- A pin as the pool holds it at process start: only identity is set, every
other field has its zero value. -/
def freshPin (name : String) (number : Int) : Pin :=
  { name := name, number := number, altFunc := AltFuncs.zero, available := false,
    supportEdge := false, sysfsPin := none }

/-- A pool at process start holding the pins PA0, PG15 and PL0. -/
def poolAtStart : Pool := fun n =>
  if n = "PA0" then some (freshPin "PA0" 0)
  else if n = "PG15" then some (freshPin "PG15" 207)
  else if n = "PL0" then some (freshPin "PL0" 352)
  else none

/-- The pool `poolAtStart` in a state where PL0 already supports edges. -/
def poolEdgeSet : Pool :=
  Function.update poolAtStart "PL0" (some { freshPin "PL0" 352 with supportEdge := true })

/-- A map `sysfs.Pins` that has a handle for every number. -/
def sysfsPinsAll : Int → Option SysfsPin := fun n => some (SysfsPin.mk n)

/-- A function table with one entry, for a pin that `mappingH616` does not name. -/
def tablePA0 : FuncTable := [("PA0", AltFuncs.mk "UART2_TX" "JTAG_MS" "" "" "PA_EINT0")]

/-- A function table with an entry tagged for edge interrupts and one with an
empty fifth label. -/
def tablePG15PL0 : FuncTable := [
  ("PG15", AltFuncs.mk "UART2_TX" "" "" "TWI4_SCK" "PG_EINT15"),
  ("PL0", AltFuncs.mk "" "S_TWI0_SCK" "" "" "")
]

/-- A pool at process start holding the pins PA0 and PI8. -/
def poolPA0PI8 : Pool := fun n =>
  if n = "PA0" then some (freshPin "PA0" 0)
  else if n = "PI8" then some (freshPin "PI8" 264)
  else none

end allwinner

namespace orangepi

/-- The constant `isArm` is set by the build target and `distro.DTModel()`
reads the device tree; both are inputs of the definitions below. -/
def Present (isArm : Bool) (dtModel : String) : Bool :=
  if isArm then strings.HasPrefix dtModel "OrangePi" else false

def boardZero : String := "Orange Pi Zero"
def boardZero2W : String := "Orange Pi Zero 2W"

def PA1_1 : pin.Pin := pin.DC_IN
def PA1_2 : pin.Pin := pin.V5
def PA1_3 : pin.Pin := allwinner.PA12
def PA1_4 : pin.Pin := pin.V5
def PA1_5 : pin.Pin := allwinner.PA11
def PA1_6 : pin.Pin := pin.GROUND
def PA1_7 : pin.Pin := allwinner.PA6
def PA1_8 : pin.Pin := allwinner.PG6
def PA1_9 : pin.Pin := pin.GROUND
def PA1_10 : pin.Pin := allwinner.PG7
def PA1_11 : pin.Pin := allwinner.PA1
def PA1_12 : pin.Pin := allwinner.PA7
def PA1_13 : pin.Pin := allwinner.PA0
def PA1_14 : pin.Pin := pin.GROUND
def PA1_15 : pin.Pin := allwinner.PA3
def PA1_16 : pin.Pin := allwinner.PA19
def PA1_17 : pin.Pin := pin.DC_IN
def PA1_18 : pin.Pin := allwinner.PA18
def PA1_19 : pin.Pin := allwinner.PA15
def PA1_20 : pin.Pin := pin.GROUND
def PA1_21 : pin.Pin := allwinner.PA16
def PA1_22 : pin.Pin := allwinner.PA2
def PA1_23 : pin.Pin := allwinner.PA14
def PA1_24 : pin.Pin := allwinner.PA13
def PA1_25 : pin.Pin := pin.GROUND
def PA1_26 : pin.Pin := allwinner.PA10
def FUN1_1 : pin.Pin := pin.V5
def FUN1_2 : pin.Pin := pin.GROUND
def FUN1_3 : pin.Pin := gpio.INVALID
def FUN1_4 : pin.Pin := gpio.INVALID
def FUN1_5 : pin.Pin := gpio.INVALID
def FUN1_6 : pin.Pin := gpio.INVALID
def FUN1_7 : pin.Pin := allwinner.HP_RIGHT
def FUN1_8 : pin.Pin := allwinner.HP_LEFT
def FUN1_9 : pin.Pin := gpio.INVALID
def FUN1_10 : pin.Pin := gpio.INVALID
def FUN1_11 : pin.Pin := allwinner.MIC_IN
def FUN1_12 : pin.Pin := allwinner.MIC_GND
def FUN1_13 : pin.Pin := allwinner.PL11
def P1_1 : pin.Pin := pin.V3_3
def P1_2 : pin.Pin := pin.V5
def P1_3 : pin.Pin := allwinner.PI8
def P1_4 : pin.Pin := pin.V5
def P1_5 : pin.Pin := allwinner.PI7
def P1_6 : pin.Pin := pin.GROUND
def P1_7 : pin.Pin := allwinner.PI13
def P1_8 : pin.Pin := allwinner.PH0
def P1_9 : pin.Pin := pin.GROUND
def P1_10 : pin.Pin := allwinner.PH1
def P1_11 : pin.Pin := allwinner.PH2
def P1_12 : pin.Pin := allwinner.PI1
def P1_13 : pin.Pin := allwinner.PH3
def P1_14 : pin.Pin := pin.GROUND
def P1_15 : pin.Pin := allwinner.PI5
def P1_16 : pin.Pin := allwinner.PI4
def P1_17 : pin.Pin := pin.V3_3
def P1_18 : pin.Pin := allwinner.PH4
def P1_19 : pin.Pin := allwinner.PH7
def P1_20 : pin.Pin := pin.GROUND
def P1_21 : pin.Pin := allwinner.PH8
def P1_22 : pin.Pin := allwinner.PI6
def P1_23 : pin.Pin := allwinner.PH6
def P1_24 : pin.Pin := allwinner.PH5
def P1_25 : pin.Pin := pin.GROUND
def P1_26 : pin.Pin := allwinner.PH9
def P1_27 : pin.Pin := allwinner.PI10
def P1_28 : pin.Pin := allwinner.PI9
def P1_29 : pin.Pin := allwinner.PI0
def P1_30 : pin.Pin := pin.GROUND
def P1_31 : pin.Pin := allwinner.PI15
def P1_32 : pin.Pin := allwinner.PI11
def P1_33 : pin.Pin := allwinner.PI12
def P1_34 : pin.Pin := pin.GROUND
def P1_35 : pin.Pin := allwinner.PI2
def P1_36 : pin.Pin := allwinner.PC12
def P1_37 : pin.Pin := allwinner.PI16
def P1_38 : pin.Pin := allwinner.PI4
def P1_39 : pin.Pin := pin.GROUND
def P1_40 : pin.Pin := allwinner.PI3

/-- The rows `registerHeaders` passes to `pinreg.Register` for header "PA". -/
def rowsPA : List (List pin.Pin) := [
  [PA1_1, PA1_2],
  [PA1_3, PA1_4],
  [PA1_5, PA1_6],
  [PA1_7, PA1_8],
  [PA1_9, PA1_10],
  [PA1_11, PA1_12],
  [PA1_13, PA1_14],
  [PA1_15, PA1_16],
  [PA1_17, PA1_18],
  [PA1_19, PA1_20],
  [PA1_21, PA1_22],
  [PA1_23, PA1_24],
  [PA1_25, PA1_26]
]

/-- The rows `registerHeaders` passes to `pinreg.Register` for header "FUN". -/
def rowsFUN : List (List pin.Pin) := [
  [FUN1_1],
  [FUN1_2],
  [FUN1_3],
  [FUN1_4],
  [FUN1_5],
  [FUN1_6],
  [FUN1_7],
  [FUN1_8],
  [FUN1_9],
  [FUN1_10],
  [FUN1_11],
  [FUN1_12],
  [FUN1_13]
]

/-- The rows `registerHeaders` passes to `pinreg.Register` for header "P1". -/
def rowsP1 : List (List pin.Pin) := [
  [P1_1, P1_2],
  [P1_3, P1_4],
  [P1_5, P1_6],
  [P1_7, P1_8],
  [P1_9, P1_10],
  [P1_11, P1_12],
  [P1_13, P1_14],
  [P1_15, P1_16],
  [P1_17, P1_18],
  [P1_19, P1_20],
  [P1_21, P1_22],
  [P1_23, P1_24],
  [P1_25, P1_26],
  [P1_27, P1_28],
  [P1_29, P1_30],
  [P1_31, P1_32],
  [P1_33, P1_34],
  [P1_35, P1_36],
  [P1_37, P1_38],
  [P1_39, P1_40]
]

/-- The signature of `pinreg.Register` (a function of another module): it is
given a header name and its rows, acts on the registry state and returns an
error or `nil`. -/
abbrev RegisterFn (σ : Type) := String → List (List pin.Pin) → σ → Option String × σ

/-- The function `registerHeaders` of `orangepi.go`. -/
def registerHeaders {σ : Type} (Register : RegisterFn σ) (model : String) (s : σ) :
    Option String × σ :=
  if strings.Contains model boardZero then
    match Register "PA" rowsPA s with
    | (some err, s1) => (some err, s1)
    | (none, s1) =>
      match Register "FUN" rowsFUN s1 with
      | (some err, s2) => (some err, s2)
      | (none, s2) => (none, s2)
  else if strings.Contains model boardZero2W then
    match Register "P1" rowsP1 s with
    | (some err, s1) => (some err, s1)
    | (none, s1) => (none, s1)
  else
    (none, s)

/-- The body of `driver.Init` with the callee `registerHeaders` left open.
`dtModel1` is what `distro.DTModel()` returns to `Present`, `dtModel2` what
it returns to `Init` itself. -/
def driver.InitWith {σ : Type} (callee : String → σ → Option String × σ) (isArm : Bool)
    (dtModel1 dtModel2 : String) (s : σ) : (Bool × Option String) × σ :=
  if !Present isArm dtModel1 then
    ((false, some "board Orange Pi not detected"), s)
  else
    let model := dtModel2
    if model = "<unknown>" then
      ((true, some "orangepi: failed to obtain model"), s)
    else
      let r := callee model s
      ((true, r.1), r.2)

/-- The method `driver.Init` of `orangepi.go`. -/
def driver.Init {σ : Type} (Register : RegisterFn σ) (isArm : Bool)
    (dtModel1 dtModel2 : String) (s : σ) : (Bool × Option String) × σ :=
  driver.InitWith (registerHeaders Register) isArm dtModel1 dtModel2 s

/-- A registry that accepts every header and keeps the calls it received, in
order. -/
def recordRegister : RegisterFn (List (String × List (List pin.Pin))) :=
  fun name rows s => (none, s ++ [(name, rows)])

/-- The element at a header position; positions count from 1 along the rows. -/
def position (rows : List (List pin.Pin)) (n : Nat) : Option pin.Pin :=
  if n = 0 then none else rows.flatten.get? (n - 1)

/-- The names of the chip GPIO pins of a header, one per position holding one. -/
def gpioNames (rows : List (List pin.Pin)) : List String :=
  rows.flatten.filterMap pin.Pin.gpioName

end orangepi

/-! ## Properties of `mapH616Pins` -/

namespace allwinner

theorem populatePin_eq (s : Int → Option SysfsPin) (af : AltFuncs) (p : Pin) :
    populatePin s af p =
      { name := p.name, number := p.number, altFunc := af, available := true,
        supportEdge := p.supportEdge || strings.Contains af.f4 "_EINT",
        sysfsPin := s p.number } := by
  unfold populatePin
  cases h : strings.Contains af.f4 "_EINT" <;> simp

theorem populateAll_snoc (s : Int → Option SysfsPin) (l : List AltFuncs) (af : AltFuncs)
    (p : Pin) : populateAll s (l ++ [af]) p = populatePin s af (populateAll s l p) := by
  simp [populateAll, List.foldl_append]

theorem populateAll_number (s : Int → Option SysfsPin) (l : List AltFuncs) (p : Pin) :
    (populateAll s l p).number = p.number ∧ (populateAll s l p).name = p.name := by
  induction l using List.reverseRecOn with
  | nil => simp [populateAll]
  | append_singleton l af ih => rw [populateAll_snoc, populatePin_eq]; exact ih

theorem populateAll_supportEdge (s : Int → Option SysfsPin) (l : List AltFuncs) (p : Pin) :
    (populateAll s l p).supportEdge
      = (p.supportEdge || l.any (fun af => strings.Contains af.f4 "_EINT")) := by
  induction l using List.reverseRecOn with
  | nil => simp [populateAll]
  | append_singleton l af ih =>
    rw [populateAll_snoc, populatePin_eq]
    simp [ih, Bool.or_assoc]

theorem populateAll_snoc_eq (s : Int → Option SysfsPin) (l : List AltFuncs) (af : AltFuncs)
    (p : Pin) :
    populateAll s (l ++ [af]) p =
      { name := p.name, number := p.number, altFunc := af, available := true,
        supportEdge := p.supportEdge || (l ++ [af]).any (fun a => strings.Contains a.f4 "_EINT"),
        sysfsPin := s p.number } := by
  rw [populateAll_snoc, populatePin_eq, populateAll_supportEdge,
    (populateAll_number s l p).1, (populateAll_number s l p).2]
  simp [Bool.or_assoc]

theorem populateAll_idem (s : Int → Option SysfsPin) (l : List AltFuncs) (p : Pin) :
    populateAll s l (populateAll s l p) = populateAll s l p := by
  rcases List.eq_nil_or_concat l with h | ⟨l1, af, h⟩
  · subst h; rfl
  · rw [List.concat_eq_append] at h
    subst h
    rw [populateAll_snoc_eq s l1 af p, populateAll_snoc_eq]
    simp [Bool.or_assoc]

theorem mapH616PinsStep_eq (s : Int → Option SysfsPin) (pool pool1 : Pool)
    (e : String × AltFuncs) (h : mapH616PinsStep s pool e = some pool1) :
    ∃ pin, pool e.1 = some pin ∧
      pool1 = Function.update pool e.1 (some (populatePin s e.2 pin)) := by
  unfold mapH616PinsStep at h
  cases hp : pool e.1 with
  | none => rw [hp] at h; cases h
  | some pin =>
    rw [hp] at h
    injection h with h
    exact ⟨pin, rfl, h.symm⟩

/-- Pointwise description of a completed run: each pin received, in order, the
assignments of the entries filed under its name. -/
theorem mapH616Pins_spec (s : Int → Option SysfsPin) :
    ∀ (t : FuncTable) (pool pool1 : Pool), mapH616Pins s t pool = some pool1 →
      ∀ n, pool1 n = (pool n).map (populateAll s (FuncTable.entriesFor n t)) := by
  intro t
  induction t with
  | nil =>
    intro pool pool1 h n
    simp only [mapH616Pins, Option.some.injEq] at h
    subst h
    cases pool n <;> simp [FuncTable.entriesFor, populateAll]
  | cons e t ih =>
    intro pool pool1 h n
    simp only [mapH616Pins] at h
    cases hstep : mapH616PinsStep s pool e with
    | none => rw [hstep] at h; cases h
    | some pool2 =>
      rw [hstep] at h
      obtain ⟨pin, hp, hpool2⟩ := mapH616PinsStep_eq s pool pool2 e hstep
      rw [ih pool2 pool1 h n, hpool2]
      by_cases hn : n = e.1
      · subst hn
        simp [FuncTable.entriesFor, populateAll, hp]
      · have hne : ¬ e.1 = n := fun h => hn h.symm
        simp [FuncTable.entriesFor, Function.update_noteq hn, hne]

/-- A run completes exactly when the pool holds every pin the table names. -/
theorem mapH616Pins_isSome (s : Int → Option SysfsPin) :
    ∀ (t : FuncTable) (pool : Pool),
      (mapH616Pins s t pool).isSome = true ↔ ∀ k ∈ FuncTable.keys t, (pool k).isSome = true := by
  intro t
  induction t with
  | nil => intro pool; simp [mapH616Pins, FuncTable.keys]
  | cons e t ih =>
    intro pool
    simp only [mapH616Pins, FuncTable.keys, List.map_cons, List.mem_cons, forall_eq_or_imp]
    cases hp : pool e.1 with
    | none => simp [mapH616PinsStep, hp]
    | some pin =>
      have hstep : mapH616PinsStep s pool e
          = some (Function.update pool e.1 (some (populatePin s e.2 pin))) := by
        simp [mapH616PinsStep, hp]
      rw [hstep]
      simp only [Option.isSome_some, true_and]
      rw [ih]
      constructor
      · intro h k hk
        have := h k hk
        by_cases hke : k = e.1
        · rw [hke, hp]; rfl
        · rwa [Function.update_noteq hke] at this
      · intro h k hk
        by_cases hke : k = e.1
        · rw [hke]; simp
        · rw [Function.update_noteq hke]; exact h k hk

theorem FuncTable.entriesFor_of_not_mem (n : String) :
    ∀ t : FuncTable, n ∉ FuncTable.keys t → FuncTable.entriesFor n t = [] := by
  intro t
  induction t with
  | nil => intro _; rfl
  | cons e t ih =>
    intro h
    simp only [FuncTable.keys, List.map_cons, List.mem_cons, not_or] at h
    have hne : ¬ e.1 = n := fun h1 => h.1 h1.symm
    have := ih h.2
    simp only [FuncTable.entriesFor] at this ⊢
    simp [hne, this]

theorem FuncTable.entriesFor_of_nodup (n : String) (af : AltFuncs) :
    ∀ t : FuncTable, (FuncTable.keys t).Nodup → (n, af) ∈ t →
      FuncTable.entriesFor n t = [af] := by
  intro t
  induction t with
  | nil => intro _ h; cases h
  | cons e t ih =>
    intro hnd hmem
    simp only [FuncTable.keys, List.map_cons, List.nodup_cons] at hnd
    rcases List.mem_cons.mp hmem with h | h
    · subst h
      have := FuncTable.entriesFor_of_not_mem n t hnd.1
      simp only [FuncTable.entriesFor] at this ⊢
      simp [this]
    · have hk : n ∈ FuncTable.keys t := List.mem_map.mpr ⟨(n, af), h, rfl⟩
      have hne : ¬ e.1 = n := fun h1 => hnd.1 (h1 ▸ hk)
      have := ih hnd.2 h
      simp only [FuncTable.entriesFor] at this ⊢
      simp [hne, this]

/-- On a pool holding every pin the table names the run completes, and with
distinct keys the pin named by the entry `(n, af)` ends as `populatePin`
leaves it: `altFunc = af`, `available = true`, `supportEdge` raised when the
fifth label contains "_EINT", `sysfsPin` looked up by number. -/
theorem mapH616Pins_entry (s : Int → Option SysfsPin) (t : FuncTable) (pool : Pool)
    (n : String) (af : AltFuncs) (p : Pin)
    (hnd : (FuncTable.keys t).Nodup)
    (hpool : ∀ k ∈ FuncTable.keys t, (pool k).isSome = true)
    (hmem : (n, af) ∈ t) (hp : pool n = some p) :
    ∃ pool1, mapH616Pins s t pool = some pool1 ∧ pool1 n = some (populatePin s af p) := by
  obtain ⟨pool1, h1⟩ := Option.isSome_iff_exists.mp ((mapH616Pins_isSome s t pool).mpr hpool)
  have hn := mapH616Pins_spec s t pool pool1 h1 n
  rw [FuncTable.entriesFor_of_nodup n af t hnd hmem, hp] at hn
  simp only [Option.map_some', populateAll, List.foldl_cons, List.foldl_nil] at hn
  exact ⟨pool1, h1, hn⟩

/-- C1. The loop of `mapH616Pins` ranges over `mappingH5`, not over
`mappingH616`: with a table `mappingH5` that has only the entry PA0, pin
PG15, a key of `mappingH616`, keeps its state at process start (not
available, no labels), while PA0, no key of `mappingH616`, becomes
available. -/
theorem mapH616Pins_ranges_over_mappingH5 :
    "PG15" ∈ FuncTable.keys mappingH616 ∧
    "PA0" ∉ FuncTable.keys mappingH616 ∧
    (mapH616Pins sysfsPinsAll tablePA0 poolAtStart).bind (fun pool => pool "PG15")
      = some { name := "PG15", number := 207, altFunc := AltFuncs.zero, available := false,
               supportEdge := false, sysfsPin := none } ∧
    (mapH616Pins sysfsPinsAll tablePA0 poolAtStart).bind (fun pool => pool "PA0")
      = some { name := "PA0", number := 0,
               altFunc := AltFuncs.mk "UART2_TX" "JTAG_MS" "" "" "PA_EINT0",
               available := true, supportEdge := true, sysfsPin := some (SysfsPin.mk 0) } := by
  refine ⟨by decide, by decide, by decide, by decide⟩

/-- C2, as stated, fails: a pin whose `supportEdge` is already set keeps it
when it is populated from an entry with an empty fifth label. -/
theorem mapH616Pins_supportEdge_not_cleared :
    strings.Contains "" "_EINT" = false ∧
    (poolEdgeSet "PL0").map (fun p => p.supportEdge) = some true ∧
    ((mapH616Pins sysfsPinsAll [("PL0", AltFuncs.mk "" "S_TWI0_SCK" "" "" "")] poolEdgeSet).bind
      (fun pool => pool "PL0")).map (fun p => p.supportEdge) = some true := by
  refine ⟨by decide, by decide, by decide⟩

/-- C2, amended. For a table with distinct keys and a pool holding every pin
it names, the run completes, and a pin populated from the entry `(n, af)`
ends with `supportEdge` set exactly when it was set before or the fifth label
of `af` contains "_EINT". So a pin that started with `supportEdge = false`
ends with it set iff the fifth label contains "_EINT", and with an empty
fifth label it ends with `supportEdge = false`. -/
theorem mapH616Pins_supportEdge (s : Int → Option SysfsPin) (t : FuncTable) (pool : Pool)
    (n : String) (af : AltFuncs) (p : Pin)
    (hnd : (FuncTable.keys t).Nodup)
    (hpool : ∀ k ∈ FuncTable.keys t, (pool k).isSome = true)
    (hmem : (n, af) ∈ t) (hp : pool n = some p) :
    ∃ pool1 p1, mapH616Pins s t pool = some pool1 ∧ pool1 n = some p1 ∧
      p1.supportEdge = (p.supportEdge || strings.Contains af.f4 "_EINT") ∧
      (p.supportEdge = false →
        (p1.supportEdge = true ↔ strings.Contains af.f4 "_EINT" = true)) ∧
      (p.supportEdge = false → af.f4 = "" → p1.supportEdge = false) := by
  obtain ⟨pool1, h1, hn⟩ := mapH616Pins_entry s t pool n af p hnd hpool hmem hp
  refine ⟨pool1, populatePin s af p, h1, hn, ?_, ?_, ?_⟩
  · rw [populatePin_eq]
  · intro h0
    rw [populatePin_eq]
    simp [h0]
  · intro h0 h4
    rw [populatePin_eq, h4]
    simp only [h0, Bool.false_or]
    decide

/-- C2, amended, at a concrete table and pool: PG15 (fifth label
"PG_EINT15") and PL0 (empty fifth label) from a pool at process start. -/
theorem mapH616Pins_supportEdge_witness :
    ∃ pool1 p1, mapH616Pins sysfsPinsAll tablePG15PL0 poolAtStart = some pool1 ∧
      pool1 "PL0" = some p1 ∧
      p1.supportEdge = ((freshPin "PL0" 352).supportEdge || strings.Contains "" "_EINT") ∧
      ((freshPin "PL0" 352).supportEdge = false →
        (p1.supportEdge = true ↔ strings.Contains "" "_EINT" = true)) ∧
      ((freshPin "PL0" 352).supportEdge = false → "" = "" → p1.supportEdge = false) :=
  mapH616Pins_supportEdge sysfsPinsAll tablePG15PL0 poolAtStart "PL0"
    (AltFuncs.mk "" "S_TWI0_SCK" "" "" "") (freshPin "PL0" 352)
    (by decide) (by decide) (by decide) (by decide)

/-- C4. `mapH616Pins` is idempotent: for every map `sysfs.Pins`, every
function table and every pool, running it a second time on the pool the
first run leaves gives that same pool (and a first run that stops on a
missing pin stops the sequence the same way). -/
theorem mapH616Pins_idempotent (s : Int → Option SysfsPin) (t : FuncTable) (pool : Pool) :
    (mapH616Pins s t pool).bind (mapH616Pins s t) = mapH616Pins s t pool := by
  cases h : mapH616Pins s t pool with
  | none => rfl
  | some pool1 =>
    show mapH616Pins s t pool1 = some pool1
    have hsome : (mapH616Pins s t pool1).isSome = true := by
      rw [mapH616Pins_isSome]
      intro k hk
      have h0 := (mapH616Pins_isSome s t pool).mp (by rw [h]; rfl) k hk
      rw [mapH616Pins_spec s t pool pool1 h k]
      simpa using h0
    obtain ⟨pool2, h2⟩ := Option.isSome_iff_exists.mp hsome
    rw [h2]
    congr 1
    funext n
    rw [mapH616Pins_spec s t pool1 pool2 h2 n, mapH616Pins_spec s t pool pool1 h n]
    cases pool n <;> simp [populateAll_idem]

/-- C5. On a pool holding every pin the table names, `mapH616Pins` completes
and leaves every pin whose name is not a key of the table exactly as it was
(all fields, so `altFunc`, `available`, `supportEdge` and `sysfsPin`); in
particular, from a pool in which no pin is available, every such pin is
still not available afterwards. -/
theorem mapH616Pins_frame (s : Int → Option SysfsPin) (t : FuncTable) (pool : Pool)
    (hpool : ∀ k ∈ FuncTable.keys t, (pool k).isSome = true) :
    ∃ pool1, mapH616Pins s t pool = some pool1 ∧
      (∀ n, n ∉ FuncTable.keys t → pool1 n = pool n) ∧
      ((∀ n p, pool n = some p → p.available = false) →
        ∀ n p1, n ∉ FuncTable.keys t → pool1 n = some p1 → p1.available = false) := by
  obtain ⟨pool1, h1⟩ := Option.isSome_iff_exists.mp ((mapH616Pins_isSome s t pool).mpr hpool)
  have hframe : ∀ n, n ∉ FuncTable.keys t → pool1 n = pool n := by
    intro n hn
    rw [mapH616Pins_spec s t pool pool1 h1 n, FuncTable.entriesFor_of_not_mem n t hn]
    cases pool n <;> simp [populateAll]
  refine ⟨pool1, h1, hframe, ?_⟩
  intro hfresh n p1 hn hp1
  rw [hframe n hn] at hp1
  exact hfresh n p1 hp1

/-- C5 at a concrete table and pool: populating PG15 and PL0 from a pool at
process start leaves PA0 untouched and not available. -/
theorem mapH616Pins_frame_witness :
    ∃ pool1, mapH616Pins sysfsPinsAll tablePG15PL0 poolAtStart = some pool1 ∧
      (∀ n, n ∉ FuncTable.keys tablePG15PL0 → pool1 n = poolAtStart n) ∧
      ((∀ n p, poolAtStart n = some p → p.available = false) →
        ∀ n p1, n ∉ FuncTable.keys tablePG15PL0 → pool1 n = some p1 →
          p1.available = false) :=
  mapH616Pins_frame sysfsPinsAll tablePG15PL0 poolAtStart (by decide)

end allwinner

/-! ## Properties of the Orange Pi headers and of `driver.Init` -/

namespace orangepi

/-- Every model string that contains "Orange Pi Zero 2W" contains
"Orange Pi Zero". -/
theorem contains_boardZero_append (a b : String) :
    strings.Contains (a ++ boardZero2W ++ b) boardZero = true := by
  have h : boardZero.data <:+: (a ++ boardZero2W ++ b).data := by
    refine ⟨a.data, " 2W".data ++ b.data, ?_⟩
    have h2W : boardZero2W.data = boardZero.data ++ " 2W".data := by decide
    simp only [String.data_append, h2W, List.append_assoc]
  unfold strings.Contains
  exact decide_eq_true h

/-- C3. Header "P1" binds the chip pin PI4 at two positions, 16 and 38, so
its GPIO pins are not pairwise distinct; the headers "PA" and "FUN" do bind
pairwise distinct GPIO pins. The label PWM4 that the source notes at
position 16 is a function of PI14 in `mappingH616`, not of PI4. -/
theorem rowsP1_binds_PI4_twice :
    position rowsP1 16 = some allwinner.PI4 ∧
    position rowsP1 38 = some allwinner.PI4 ∧
    allwinner.PI4 = pin.Pin.gpio "PI4" ∧
    ¬ (gpioNames rowsP1).Nodup ∧
    (gpioNames rowsPA).Nodup ∧
    (gpioNames rowsFUN).Nodup ∧
    (allwinner.mappingH616.lookup "PI14").map (fun af => af.f3) = some "PWM4" ∧
    (allwinner.mappingH616.lookup "PI4").map (fun af => af.f3) = some "H_I2S0_DOUT1" := by
  refine ⟨by decide, by decide, by decide, by decide, by decide, by decide, by decide, by decide⟩

/-- C6, as stated, fails: with no Orange Pi present `driver.Init` returns
false together with an error, not `nil`. -/
theorem Init_absent_returns_error :
    Present false "Raspberry Pi 3 Model B" = false ∧
    (driver.Init recordRegister false "Raspberry Pi 3 Model B" "Raspberry Pi 3 Model B" []).1
      = (false, some "board Orange Pi not detected") ∧
    (driver.Init recordRegister false "Raspberry Pi 3 Model B" "Raspberry Pi 3 Model B" []).1.2
      ≠ none := by
  refine ⟨by decide, by decide, by decide⟩

/-- C6, amended. When `Present()` returns false, `driver.Init` returns false
together with the error "board Orange Pi not detected" and leaves the
registry as it was, whatever function stands in for `registerHeaders`: the
callee is never run. -/
theorem Init_not_present {σ : Type} (callee : String → σ → Option String × σ)
    (Register : RegisterFn σ) (isArm : Bool) (dtModel1 dtModel2 : String) (s : σ)
    (h : Present isArm dtModel1 = false) :
    driver.InitWith callee isArm dtModel1 dtModel2 s
      = ((false, some "board Orange Pi not detected"), s) ∧
    driver.Init Register isArm dtModel1 dtModel2 s
      = ((false, some "board Orange Pi not detected"), s) := by
  simp [driver.Init, driver.InitWith, h]

/-- C6, amended, on an ARM host whose model is not an Orange Pi. -/
theorem Init_not_present_witness :
    Present true "Raspberry Pi 3 Model B" = false ∧
    (driver.InitWith (registerHeaders recordRegister) true "Raspberry Pi 3 Model B"
        "Orange Pi Zero" []
      = ((false, some "board Orange Pi not detected"), []) ∧
     driver.Init recordRegister true "Raspberry Pi 3 Model B" "Orange Pi Zero" []
      = ((false, some "board Orange Pi not detected"), [])) :=
  ⟨by decide, Init_not_present (registerHeaders recordRegister) recordRegister true
    "Raspberry Pi 3 Model B" "Orange Pi Zero" [] (by decide)⟩

/-- C7. When `Present()` returns true and the model string `Init` reads is
"<unknown>", `driver.Init` returns true together with the error
"orangepi: failed to obtain model" and leaves the registry as it was,
whatever function stands in for `registerHeaders`: the callee is never run. -/
theorem Init_model_unknown {σ : Type} (callee : String → σ → Option String × σ)
    (Register : RegisterFn σ) (isArm : Bool) (dtModel1 : String) (s : σ)
    (h : Present isArm dtModel1 = true) :
    driver.InitWith callee isArm dtModel1 "<unknown>" s
      = ((true, some "orangepi: failed to obtain model"), s) ∧
    driver.Init Register isArm dtModel1 "<unknown>" s
      = ((true, some "orangepi: failed to obtain model"), s) := by
  simp [driver.Init, driver.InitWith, h]

/-- C7 on an ARM host whose first model read is "OrangePi Zero". -/
theorem Init_model_unknown_witness :
    Present true "OrangePi Zero" = true ∧
    (driver.InitWith (registerHeaders recordRegister) true "OrangePi Zero" "<unknown>" []
      = ((true, some "orangepi: failed to obtain model"), []) ∧
     driver.Init recordRegister true "OrangePi Zero" "<unknown>" []
      = ((true, some "orangepi: failed to obtain model"), [])) :=
  ⟨by decide, Init_model_unknown (registerHeaders recordRegister) recordRegister true
    "OrangePi Zero" [] (by decide)⟩

/-- C8. For every model string that contains "Orange Pi Zero 2W" (written
`a ++ "Orange Pi Zero 2W" ++ b`), `registerHeaders` takes the branch of
"Orange Pi Zero": it registers "PA" and then "FUN" and does not register
"P1". -/
theorem registerHeaders_Zero2W_registers_PA_FUN (a b : String)
    (log : List (String × List (List pin.Pin))) :
    strings.Contains (a ++ boardZero2W ++ b) boardZero2W = true ∧
    registerHeaders recordRegister (a ++ boardZero2W ++ b) log
      = (none, log ++ [("PA", rowsPA)] ++ [("FUN", rowsFUN)]) ∧
    registerHeaders recordRegister "Orange Pi Zero 2W" []
      = (none, [("PA", rowsPA), ("FUN", rowsFUN)]) := by
  refine ⟨?_, ?_, by decide⟩
  · have h : boardZero2W.data <:+: (a ++ boardZero2W ++ b).data :=
      ⟨a.data, b.data, by simp only [String.data_append]⟩
    unfold strings.Contains
    exact decide_eq_true h
  · simp [registerHeaders, contains_boardZero_append, recordRegister]

/-- Every position of header "P1" holds a 3.3V rail, a 5V rail, ground, or a
chip GPIO pin whose name is a key of `mappingH616`. -/
theorem rowsP1_gpio_in_mappingH616 (n : Nat) (x : pin.Pin)
    (h : position rowsP1 n = some x) :
    x = pin.V3_3 ∨ x = pin.V5 ∨ x = pin.GROUND ∨
      ∃ name, x = pin.Pin.gpio name ∧ name ∈ allwinner.FuncTable.keys allwinner.mappingH616 := by
  have hx : x ∈ rowsP1.flatten := by
    unfold position at h
    split at h
    · cases h
    · exact List.get?_mem h
  have hall : ∀ y ∈ rowsP1.flatten,
      (decide (y = pin.V3_3) || decide (y = pin.V5) || decide (y = pin.GROUND) ||
        (match y.gpioName with
          | some name => decide (name ∈ allwinner.FuncTable.keys allwinner.mappingH616)
          | none => false)) = true := by
    decide
  have hy := hall x hx
  cases x with
  | fixed r => simp [pin.Pin.gpioName] at hy; tauto
  | invalid => simp [pin.Pin.gpioName, pin.V3_3, pin.V5, pin.GROUND] at hy
  | analog r => simp [pin.Pin.gpioName, pin.V3_3, pin.V5, pin.GROUND] at hy
  | gpio name =>
    simp [pin.Pin.gpioName, pin.V3_3, pin.V5, pin.GROUND] at hy
    exact Or.inr (Or.inr (Or.inr ⟨name, rfl, hy⟩))

/-- C9. Every GPIO pin of header "P1" is named by a key of `mappingH616`, yet
population does not make those pins available: position 3 holds PI8, a key
of `mappingH616`, and since the loop of `mapH616Pins` ranges over
`mappingH5`, a run with a table `mappingH5` that has only the entry PA0
leaves PI8 as it was at process start, not available and without labels. -/
theorem rowsP1_PI8_left_unavailable :
    position rowsP1 3 = some allwinner.PI8 ∧
    allwinner.PI8 = pin.Pin.gpio "PI8" ∧
    "PI8" ∈ allwinner.FuncTable.keys allwinner.mappingH616 ∧
    (gpioNames rowsP1).all
      (fun name => decide (name ∈ allwinner.FuncTable.keys allwinner.mappingH616)) = true ∧
    (allwinner.mapH616Pins allwinner.sysfsPinsAll allwinner.tablePA0 allwinner.poolPA0PI8).bind
        (fun pool => pool "PI8")
      = some { name := "PI8", number := 264, altFunc := allwinner.AltFuncs.zero,
               available := false, supportEdge := false, sysfsPin := none } := by
  refine ⟨by decide, by decide, by decide, by decide, by decide⟩

/-- C10. When both reads of the model give the same string `m` and
`Present()` holds for it, `m` is not "<unknown>", and `driver.Init` runs the
callee on `m` and returns true with the callee's error; for `driver.Init`
itself the callee is `registerHeaders`. -/
theorem Init_same_model {σ : Type} (callee : String → σ → Option String × σ)
    (Register : RegisterFn σ) (isArm : Bool) (m : String) (s : σ)
    (h : Present isArm m = true) :
    strings.HasPrefix m "OrangePi" = true ∧ m ≠ "<unknown>" ∧
    driver.InitWith callee isArm m m s = ((true, (callee m s).1), (callee m s).2) ∧
    driver.Init Register isArm m m s
      = ((true, (registerHeaders Register m s).1), (registerHeaders Register m s).2) := by
  have hpre : strings.HasPrefix m "OrangePi" = true := by
    cases isArm with
    | false => simp [Present] at h
    | true => simpa [Present] using h
  have hne : m ≠ "<unknown>" := by
    intro heq
    rw [heq] at hpre
    revert hpre
    decide
  refine ⟨hpre, hne, ?_, ?_⟩ <;> simp [driver.Init, driver.InitWith, h, hne]

/-- C10 on an ARM host whose model reads "OrangePi Zero" both times. -/
theorem Init_same_model_witness :
    Present true "OrangePi Zero" = true ∧
    (strings.HasPrefix "OrangePi Zero" "OrangePi" = true ∧ "OrangePi Zero" ≠ "<unknown>" ∧
     driver.InitWith (registerHeaders recordRegister) true "OrangePi Zero" "OrangePi Zero" []
      = ((true, (registerHeaders recordRegister "OrangePi Zero" []).1),
          (registerHeaders recordRegister "OrangePi Zero" []).2) ∧
     driver.Init recordRegister true "OrangePi Zero" "OrangePi Zero" []
      = ((true, (registerHeaders recordRegister "OrangePi Zero" []).1),
          (registerHeaders recordRegister "OrangePi Zero" []).2)) :=
  ⟨by decide, Init_same_model (registerHeaders recordRegister) recordRegister true
    "OrangePi Zero" [] (by decide)⟩

end orangepi
